import Mathlib

/-!
Verification of the FluidMCP server core: a shallow embedding of the
payment-gated RPC dispatcher, the tool handlers (`calculate`, `get_weather`,
`echo`, `get_timestamp`), the JSON-RPC endpoint `POST /mcp`, and the REST
tool routes (`/mcp/calculate`, `/mcp/weather`, listing routes), together
with theorems about the behaviour claimed in the design document.

Numbers are modelled as exact rationals (`ℚ`); the decimal rendering of
non-integer numbers and IEEE-754 rounding are abstracted (every theorem
that inspects a rendered number does so at integer values, where the
JavaScript rendering and `ratToString` agree).
-/

namespace FluidMCP

attribute [local semireducible] Rat.add Rat.mul Rat.inv Rat.sub

/-- A JavaScript runtime value, as far as the server code observes it:
`null`, `undefined`, `NaN`, `Infinity`, booleans, (finite) numbers and
strings.  Objects and arrays never flow through the positions we model
with `JValue` (tool arguments are projected into `ToolArgs`). -/
inductive JValue where
  | jnull
  | jundefined
  | jnan
  | jinf
  | jbool (b : Bool)
  | jnum (q : ℚ)
  | jstr (s : String)
deriving DecidableEq

/-- JavaScript truthiness of a `JValue` (`!x` is `!truthy x`). -/
def truthy : JValue → Bool
  | .jnull => false
  | .jundefined => false
  | .jnan => false
  | .jinf => true
  | .jbool b => b
  | .jnum q => decide (q ≠ 0)
  | .jstr s => decide (s ≠ "")

/-- Rendering of a rational as JavaScript renders the corresponding
number in a template literal.  Exact for integers; the decimal rendering
of non-integer values is abstracted as `num/den`. -/
def ratToString (q : ℚ) : String :=
  if q.den = 1 then toString q.num else toString q.num ++ "/" ++ toString q.den

/-- JavaScript `String(x)` / template-literal interpolation. -/
def jsToString : JValue → String
  | .jnull => "null"
  | .jundefined => "undefined"
  | .jnan => "NaN"
  | .jinf => "Infinity"
  | .jbool b => if b then "true" else "false"
  | .jnum q => ratToString q
  | .jstr s => s

/-- Accumulate a digit list into a natural number. -/
def digitsVal (l : List Char) : ℕ :=
  l.foldl (fun acc c => 10 * acc + (c.toNat - 48)) 0

/-- JavaScript `parseFloat`: parse the longest numeric prefix
(`sign digits [. digits]`); `none` means `NaN`.  Exponent notation and
leading whitespace are abstracted (never present in the inputs the
theorems use). -/
def parseFloatJS (s : String) : Option ℚ :=
  let cs := s.toList
  let signed : ℚ × List Char :=
    match cs with
    | '-' :: rest => (-1, rest)
    | '+' :: rest => (1, rest)
    | _ => (1, cs)
  let intPart := signed.2.takeWhile Char.isDigit
  let rest := signed.2.dropWhile Char.isDigit
  let fracPart :=
    match rest with
    | '.' :: r => r.takeWhile Char.isDigit
    | _ => []
  if intPart.isEmpty && fracPart.isEmpty then none
  else some (signed.1 * ((digitsVal intPart : ℚ) +
    (digitsVal fracPart : ℚ) / ((10 : ℚ) ^ fracPart.length)))

/-- `parseFloat` producing a `JValue` (`NaN` on failure). -/
def parseFloatJV (s : String) : JValue :=
  match parseFloatJS s with
  | some q => .jnum q
  | none => .jnan

/-- JavaScript `Number(s)` whole-string conversion (used by the abstract
machine for `-`, `*`, `/` on strings): empty string is `0`, otherwise the
whole string must be numeric. -/
def strToNumberJS (s : String) : Option ℚ :=
  if s = "" then some 0
  else
    let cs := s.toList
    let signed : ℚ × List Char :=
      match cs with
      | '-' :: rest => (-1, rest)
      | '+' :: rest => (1, rest)
      | _ => (1, cs)
    let intPart := signed.2.takeWhile Char.isDigit
    let rest := signed.2.dropWhile Char.isDigit
    let afterFrac : List Char × List Char :=
      match rest with
      | '.' :: r => (r.takeWhile Char.isDigit, r.dropWhile Char.isDigit)
      | _ => ([], rest)
    if (intPart.isEmpty && afterFrac.1.isEmpty) || ¬ afterFrac.2.isEmpty then none
    else some (signed.1 * ((digitsVal intPart : ℚ) +
      (digitsVal afterFrac.1 : ℚ) / ((10 : ℚ) ^ afterFrac.1.length)))

/-- JavaScript `ToNumber` coercion; `none` stands for `NaN`.
`Infinity` is collapsed into the non-finite case together with `NaN`
(it only arises from division by a coerced zero, a path no theorem
evaluates numerically). -/
def toNumber : JValue → Option ℚ
  | .jnull => some 0
  | .jundefined => none
  | .jnan => none
  | .jinf => none
  | .jbool b => some (if b then 1 else 0)
  | .jnum q => some q
  | .jstr s => strToNumberJS s

/-- JavaScript `+`: string concatenation when either operand is a
string, otherwise numeric addition (`NaN` propagates). -/
def jsAdd (x y : JValue) : JValue :=
  match x, y with
  | .jstr s, t => .jstr (s ++ jsToString t)
  | s, .jstr t => .jstr (jsToString s ++ t)
  | s, t =>
    match toNumber s, toNumber t with
    | some a, some b => .jnum (a + b)
    | _, _ => .jnan

/-- JavaScript `-`: numeric coercion of both operands. -/
def jsSub (x y : JValue) : JValue :=
  match toNumber x, toNumber y with
  | some a, some b => .jnum (a - b)
  | _, _ => .jnan

/-- JavaScript `*`: numeric coercion of both operands. -/
def jsMul (x y : JValue) : JValue :=
  match toNumber x, toNumber y with
  | some a, some b => .jnum (a * b)
  | _, _ => .jnan

/-- JavaScript `/`: numeric coercion; division by zero yields
`Infinity` (or `NaN` for `0/0`). -/
def jsDiv (x y : JValue) : JValue :=
  match toNumber x, toNumber y with
  | some a, some b =>
    if b = 0 then (if a = 0 then .jnan else .jinf) else .jnum (a / b)
  | _, _ => .jnan

/-- Property access `args.x` after destructuring: an absent field reads
as `undefined`. -/
def jsGet (o : Option JValue) : JValue := o.getD .jundefined

/-- JavaScript `x || y`. -/
def jsOr (x y : JValue) : JValue := if truthy x then x else y

/-- Destructuring default `const { unit = d } = args`: the default
applies exactly when the property is absent or `undefined`. -/
def jsGetD (o : Option JValue) (d : JValue) : JValue :=
  match o with
  | none => d
  | some .jundefined => d
  | some v => v

/-- `x === undefined` on an optional field. -/
def isUndefF (o : Option JValue) : Bool :=
  match o with
  | none => true
  | some .jundefined => true
  | some _ => false

/-- JavaScript `!x` on an optional query-string / header value
(absent reads as `undefined`, so `!x` holds for absent or empty). -/
def falsyQ (o : Option String) : Bool :=
  match o with
  | none => true
  | some s => decide (s = "")

/-! ### Tool results (`server.ts`) -/

/-- The object serialized by `handleCalculate` on success:
`{ operation, operands: [a, b], result, expression }`. -/
structure CalcPayload where
  operation : String
  operands : List JValue
  result : JValue
  expression : String
deriving DecidableEq

/-- The object serialized by `handleWeather`:
`{ location, temperature, unit, condition, humidity, wind_speed,
timestamp }`. -/
structure WeatherPayload where
  location : JValue
  temperature : ℚ
  unit : String
  condition : String
  humidity : ℕ
  windSpeed : ℕ
  timestamp : String
deriving DecidableEq

/-- The object serialized by `handleTimestamp`:
`{ format, timestamp, raw }`. -/
structure TimestampPayload where
  format : JValue
  timestamp : JValue
  raw : String
deriving DecidableEq

/-- The `text` field of an MCP content item.  The handlers produce either
a plain template string (echo replies and the calculator's `Error: ...`
texts) or `JSON.stringify` of a structured payload; we keep the structure
and note that `JSON.parse` succeeds exactly on the stringified payloads
(every `plain` text that reaches a REST extractor starts with `Error`,
which is not valid JSON). -/
inductive ContentText where
  | plain (s : String)
  | calcJson (p : CalcPayload)
  | weatherJson (w : WeatherPayload)
  | timestampJson (t : TimestampPayload)
deriving DecidableEq

/-- One element of an MCP result's `content` array. -/
structure ContentItem where
  ctype : String
  text : ContentText
deriving DecidableEq

/-- The value returned by every tool handler: `{ content: [...] }`. -/
structure MCPResult where
  content : List ContentItem
deriving DecidableEq

/-- An MCP result holding a single plain text item. -/
def plainResult (s : String) : MCPResult :=
  ⟨[⟨"text", .plain s⟩]⟩

/-- Tool arguments as the handlers project them out of the JSON
`arguments` object; an absent property is `none`. -/
structure ToolArgs where
  operation : Option JValue := none
  a : Option JValue := none
  b : Option JValue := none
  message : Option JValue := none
  location : Option JValue := none
  unit : Option JValue := none
  format : Option JValue := none
deriving DecidableEq

/-- Per-request nondeterminism: the four `Math.random()` draws of the
weather handler (reduced modulo their ranges) and the wall clock. -/
structure ServerEnv where
  randTemp : ℕ
  randCond : ℕ
  randHum : ℕ
  randWind : ℕ
  nowIso : String
  nowUnix : ℤ
  nowLocale : String
deriving DecidableEq

/-- The success result of `handleCalculate`:
`{ operation, operands: [a, b], result, expression: "a op b = result" }`
wrapped in a single text content item. -/
def mkCalcOk (op : String) (a b r : JValue) : MCPResult :=
  ⟨[⟨"text", .calcJson ⟨op, [a, b],
    r, jsToString a ++ " " ++ op ++ " " ++ jsToString b ++ " = " ++ jsToString r⟩⟩]⟩

/-- `MCPServer.handleCalculate`: strict string switch on `operation`;
`divide` guards `b === 0` with an error text; success builds the payload
and the template `"a operation b = result"`. -/
def handleCalculate (args : ToolArgs) : MCPResult :=
  let operation := jsGet args.operation
  let a := jsGet args.a
  let b := jsGet args.b
  if operation = .jstr "add" then
    mkCalcOk "add" a b (jsAdd a b)
  else if operation = .jstr "subtract" then
    mkCalcOk "subtract" a b (jsSub a b)
  else if operation = .jstr "multiply" then
    mkCalcOk "multiply" a b (jsMul a b)
  else if operation = .jstr "divide" then
    if b = .jnum 0 then plainResult "Error: Division by zero is not allowed"
    else mkCalcOk "divide" a b (jsDiv a b)
  else
    plainResult ("Error: Unknown operation " ++ jsToString operation)

/-- The fixed weather condition list. -/
def conditions : List String :=
  ["Sunny", "Cloudy", "Rainy", "Windy", "Partly Cloudy"]

/-- `MCPServer.handleWeather`: synthetic reading; temperature in
`[10, 39]`, Fahrenheit via `temp * 1.8 + 32`, humidity in `[40, 99]`,
wind in `[5, 24]`. -/
def handleWeather (args : ToolArgs) (env : ServerEnv) : MCPResult :=
  let location := jsGet args.location
  let unit := jsGetD args.unit (.jstr "celsius")
  let temp : ℕ := env.randTemp % 30 + 10
  ⟨[⟨"text", .weatherJson
    { location := location
      temperature := if unit = .jstr "fahrenheit" then (temp : ℚ) * (9 / 5) + 32 else (temp : ℚ)
      unit := if unit = .jstr "fahrenheit" then "°F" else "°C"
      condition := conditions.getD (env.randCond % 5) ""
      humidity := env.randHum % 60 + 40
      windSpeed := env.randWind % 20 + 5
      timestamp := env.nowIso }⟩]⟩

/-- `MCPServer.handleEcho`: template `` `Echo: ${args.message}` ``
(a missing `message` interpolates as `undefined`; no validation). -/
def handleEcho (args : ToolArgs) : MCPResult :=
  plainResult ("Echo: " ++ jsToString (jsGet args.message))

/-- `MCPServer.handleTimestamp`: `args.format || "iso"`; `unix` and
`locale` are recognised, every other value (the `default` case) falls
back to ISO. -/
def handleTimestamp (args : ToolArgs) (env : ServerEnv) : MCPResult :=
  let format := jsOr (jsGet args.format) (.jstr "iso")
  let ts : JValue :=
    if format = .jstr "unix" then .jnum (env.nowUnix : ℚ)
    else if format = .jstr "locale" then .jstr env.nowLocale
    else .jstr env.nowIso
  ⟨[⟨"text", .timestampJson ⟨format, ts, env.nowIso⟩⟩]⟩

/-- `MCPServer.callTool`: strict switch on the tool name; the `default`
branch throws `` `Unknown tool: ${name}` `` (modelled as `.error`). -/
def callTool (name : JValue) (args : ToolArgs) (env : ServerEnv) :
    Except String MCPResult :=
  if name = .jstr "calculate" then .ok (handleCalculate args)
  else if name = .jstr "get_weather" then .ok (handleWeather args env)
  else if name = .jstr "echo" then .ok (handleEcho args)
  else if name = .jstr "get_timestamp" then .ok (handleTimestamp args env)
  else .error ("Unknown tool: " ++ jsToString name)

/-! ### Capability registry (`server.ts`) -/

/-- One property of a tool's JSON input schema. -/
structure SchemaProp where
  ptype : String
  description : String
  enumVals : Option (List String) := none
deriving DecidableEq

/-- A tool's input schema: `{ type: "object", properties, required }`. -/
structure InputSchema where
  stype : String
  properties : List (String × SchemaProp)
  required : List String
deriving DecidableEq

/-- A tool descriptor as listed by `tools/list`. -/
structure ToolDescriptor where
  name : String
  description : String
  inputSchema : InputSchema
deriving DecidableEq

/-- One declared argument of a prompt. -/
structure PromptArgument where
  name : String
  description : String
  required : Bool
deriving DecidableEq

/-- A prompt descriptor as listed by `prompts/list`. -/
structure PromptDescriptor where
  name : String
  description : String
  arguments : List PromptArgument
deriving DecidableEq

/-- A resource descriptor as listed by `resources/list`. -/
structure ResourceDescriptor where
  uri : String
  name : String
  description : String
  mimeType : String
deriving DecidableEq

/-- `MCPServer.getTools`: the fixed tool catalog returned to the HTTP
routes. -/
def getTools : List ToolDescriptor :=
  [ { name := "calculate"
      description := "Perform basic mathematical calculations (add, subtract, multiply, divide)"
      inputSchema :=
        { stype := "object"
          properties :=
            [ ("operation", { ptype := "string"
                              description := "The mathematical operation to perform"
                              enumVals := some ["add", "subtract", "multiply", "divide"] })
            , ("a", { ptype := "number", description := "First number" })
            , ("b", { ptype := "number", description := "Second number" }) ]
          required := ["operation", "a", "b"] } }
  , { name := "get_weather"
      description := "Get mock weather information for a location"
      inputSchema :=
        { stype := "object"
          properties :=
            [ ("location", { ptype := "string", description := "City name or coordinates" })
            , ("unit", { ptype := "string"
                         description := "Temperature unit"
                         enumVals := some ["celsius", "fahrenheit"] }) ]
          required := ["location"] } }
  , { name := "echo"
      description := "Echo back the input message"
      inputSchema :=
        { stype := "object"
          properties :=
            [ ("message", { ptype := "string", description := "Message to echo back" }) ]
          required := ["message"] } }
  , { name := "get_timestamp"
      description := "Get current timestamp in various formats"
      inputSchema :=
        { stype := "object"
          properties :=
            [ ("format", { ptype := "string"
                           description := "Timestamp format"
                           enumVals := some ["iso", "unix", "locale"] }) ]
          required := [] } } ]

/-- The tools literal inside `setupHandlers`'s `ListToolsRequestSchema`
handler (the SSE transport's copy of the catalog, transcribed
separately from `getTools`). -/
def setupHandlersTools : List ToolDescriptor :=
  [ { name := "calculate"
      description := "Perform basic mathematical calculations (add, subtract, multiply, divide)"
      inputSchema :=
        { stype := "object"
          properties :=
            [ ("operation", { ptype := "string"
                              description := "The mathematical operation to perform"
                              enumVals := some ["add", "subtract", "multiply", "divide"] })
            , ("a", { ptype := "number", description := "First number" })
            , ("b", { ptype := "number", description := "Second number" }) ]
          required := ["operation", "a", "b"] } }
  , { name := "get_weather"
      description := "Get mock weather information for a location"
      inputSchema :=
        { stype := "object"
          properties :=
            [ ("location", { ptype := "string", description := "City name or coordinates" })
            , ("unit", { ptype := "string"
                         description := "Temperature unit"
                         enumVals := some ["celsius", "fahrenheit"] }) ]
          required := ["location"] } }
  , { name := "echo"
      description := "Echo back the input message"
      inputSchema :=
        { stype := "object"
          properties :=
            [ ("message", { ptype := "string", description := "Message to echo back" }) ]
          required := ["message"] } }
  , { name := "get_timestamp"
      description := "Get current timestamp in various formats"
      inputSchema :=
        { stype := "object"
          properties :=
            [ ("format", { ptype := "string"
                           description := "Timestamp format"
                           enumVals := some ["iso", "unix", "locale"] }) ]
          required := [] } } ]

/-- `MCPServer.getPrompts`: the fixed prompt catalog. -/
def getPrompts : List PromptDescriptor :=
  [ { name := "greeting"
      description := "Generate a friendly greeting message"
      arguments :=
        [ ⟨"name", "Name of the person to greet", true⟩
        , ⟨"time_of_day", "Time of day (morning, afternoon, evening)", false⟩ ] }
  , { name := "code_review"
      description := "Generate a code review prompt template"
      arguments :=
        [ ⟨"language", "Programming language", true⟩
        , ⟨"complexity", "Code complexity level (low, medium, high)", false⟩ ] }
  , { name := "debug_assistant"
      description := "Generate a debugging assistance prompt"
      arguments :=
        [ ⟨"error_type", "Type of error (syntax, runtime, logical)", true⟩ ] } ]

/-- The prompts literal inside `setupHandlers` (the SSE copy). -/
def setupHandlersPrompts : List PromptDescriptor :=
  [ { name := "greeting"
      description := "Generate a friendly greeting message"
      arguments :=
        [ ⟨"name", "Name of the person to greet", true⟩
        , ⟨"time_of_day", "Time of day (morning, afternoon, evening)", false⟩ ] }
  , { name := "code_review"
      description := "Generate a code review prompt template"
      arguments :=
        [ ⟨"language", "Programming language", true⟩
        , ⟨"complexity", "Code complexity level (low, medium, high)", false⟩ ] }
  , { name := "debug_assistant"
      description := "Generate a debugging assistance prompt"
      arguments :=
        [ ⟨"error_type", "Type of error (syntax, runtime, logical)", true⟩ ] } ]

/-- `MCPServer.getResources`: the fixed resource catalog. -/
def getResources : List ResourceDescriptor :=
  [ ⟨"fluidsdk://config", "Server Configuration", "Current MCP server configuration", "application/json"⟩
  , ⟨"fluidsdk://status", "Server Status", "Real-time server health and metrics", "application/json"⟩
  , ⟨"fluidsdk://docs/api", "API Documentation", "FluidSDK API reference", "text/markdown"⟩
  , ⟨"fluidsdk://docs/quickstart", "Quick Start Guide", "Getting started with FluidSDK", "text/markdown"⟩ ]

/-- The resources literal inside `setupHandlers` (the SSE copy). -/
def setupHandlersResources : List ResourceDescriptor :=
  [ ⟨"fluidsdk://config", "Server Configuration", "Current MCP server configuration", "application/json"⟩
  , ⟨"fluidsdk://status", "Server Status", "Real-time server health and metrics", "application/json"⟩
  , ⟨"fluidsdk://docs/api", "API Documentation", "FluidSDK API reference", "text/markdown"⟩
  , ⟨"fluidsdk://docs/quickstart", "Quick Start Guide", "Getting started with FluidSDK", "text/markdown"⟩ ]

/-! ### x402 payment data (`payment.config.ts`, spec §3/§6) -/

/-- Modelled from the spec: a PriceEntry, one per priced route —
`{ amount, currency USDC, network, payToAddress, assetAddress,
maxTimeoutSeconds }` (§3); the `x402-express` middleware that would hold
these values is not part of `src/`. -/
structure PriceEntry where
  amount : String
  network : String
  payTo : String
  asset : String
  maxTimeoutSeconds : ℕ
deriving DecidableEq

/-- One entry of a 402 challenge's `accepts` array, covering both the
spec's §6 shape and the literal in `POST /test/protected-call`
(whose extra `outputSchema` block is abstracted away). -/
structure AcceptRequirement where
  scheme : String
  network : String
  maxAmountRequired : String
  resource : String
  description : Option String
  payTo : String
  maxTimeoutSeconds : ℕ
  asset : String
  extraName : String
  extraVersion : String
deriving DecidableEq

/-- The 402 response body:
`{x402Version:1, error:"X-PAYMENT header is required", accepts:[...]}`. -/
structure PaymentChallenge where
  x402Version : ℕ
  errorText : String
  accepts : List AcceptRequirement
deriving DecidableEq

/-! ### JSON-RPC endpoint `POST /mcp` (`index.ts` / `mcp.routes.ts`) -/

/-- The `params` object of a `tools/call` request, as destructured by the
handler (`const { name, arguments: toolArgs } = params`). -/
structure RpcParams where
  name : Option JValue := none
  arguments : Option ToolArgs := none
deriving DecidableEq

/-- An inbound JSON-RPC request body, as destructured by the handler
(`const { jsonrpc, method, params, id } = req.body`). -/
structure RpcRequest where
  jsonrpc : Option JValue := none
  method : Option JValue := none
  params : Option RpcParams := none
  id : Option JValue := none
deriving DecidableEq

/-- A JSON-RPC `result` value. -/
inductive RpcResult where
  | initRes (protocolVersion serverName serverVersion : String)
  | toolsRes (tools : List ToolDescriptor)
  | promptsRes (prompts : List PromptDescriptor)
  | resourcesRes (resources : List ResourceDescriptor)
  | callRes (r : MCPResult)
deriving DecidableEq

/-- A JSON-RPC response body: `{jsonrpc:"2.0", result, id}`,
`{jsonrpc:"2.0", error:{code, message}, id}`, the catch-all variant with
an extra `data` field, or (under the spec-modelled gate) the 402
challenge body. -/
inductive RpcBody where
  | result (id : JValue) (res : RpcResult)
  | rpcErr (id : JValue) (code : ℤ) (message : String)
  | rpcErrData (id : JValue) (code : ℤ) (message : String) (data : String)
  | x402 (c : PaymentChallenge)
deriving DecidableEq

/-- An HTTP response of the JSON-RPC endpoint. -/
structure RpcResponse where
  status : ℕ
  body : RpcBody
deriving DecidableEq

/-- `POST /mcp`: validate `jsonrpc === "2.0"`, then dispatch on the five
supported methods; `tools/call` requires a truthy `name` and maps a
thrown `Unknown tool` to error code `-32602`; every other method is
`501` with code `-32601`.  Destructuring `params` when it is `undefined`
throws, and is caught by the surrounding `try` as a `500`/`-32603`. -/
def handleMcpPost (req : RpcRequest) (env : ServerEnv) : RpcResponse :=
  let id := jsGet req.id
  if ¬ (jsGet req.jsonrpc = .jstr "2.0") then
    ⟨400, .rpcErr (jsOr id .jnull) (-32600) "Invalid Request: jsonrpc must be \x272.0\x27"⟩
  else
    let method := jsGet req.method
    if method = .jstr "initialize" then
      ⟨200, .result id (.initRes "2024-11-05" "fluidsdk-mcp-server" "1.0.0")⟩
    else if method = .jstr "tools/list" then
      ⟨200, .result id (.toolsRes getTools)⟩
    else if method = .jstr "prompts/list" then
      ⟨200, .result id (.promptsRes getPrompts)⟩
    else if method = .jstr "resources/list" then
      ⟨200, .result id (.resourcesRes getResources)⟩
    else if method = .jstr "tools/call" then
      match req.params with
      | none =>
        ⟨500, .rpcErrData (jsOr id .jnull) (-32603) "Internal error"
          "Cannot destructure property \x27name\x27 of \x27params\x27 as it is undefined."⟩
      | some p =>
        let name := jsGet p.name
        if ¬ truthy name then
          ⟨400, .rpcErr id (-32602) "Invalid params: \x27name\x27 is required"⟩
        else
          match callTool name (p.arguments.getD {}) env with
          | .ok r => ⟨200, .result id (.callRes r)⟩
          | .error e => ⟨400, .rpcErr id (-32602) e⟩
    else
      ⟨501, .rpcErr id (-32601) ("Method not implemented: " ++ jsToString method)⟩

/-! ### REST tool routes (`mcp.routes.ts`) -/

/-- The query string of `GET /mcp/calculate` (query values are strings;
an absent parameter is `none`). -/
structure CalcQuery where
  operation : Option String := none
  a : Option String := none
  b : Option String := none
deriving DecidableEq

/-- The JSON body of `POST /mcp/calculate`. -/
structure CalcBody where
  operation : Option JValue := none
  a : Option JValue := none
  b : Option JValue := none
deriving DecidableEq

/-- The query string of `GET /mcp/weather`. -/
structure WeatherQuery where
  location : Option String := none
  unit : Option String := none
deriving DecidableEq

/-- The JSON body of `POST /mcp/weather`. -/
structure WeatherBody where
  location : Option JValue := none
  unit : Option JValue := none
deriving DecidableEq

/-- The body of a REST response. -/
inductive RestBody where
  | missingCalcGet
  | missingCalcPost
  | missingWeatherGet
  | missingWeatherPost
  | calcOk (p : CalcPayload)
  | calcFailed (message : String)
  | weatherOk (w : WeatherPayload)
  | weatherFailed (message : String)
  | toolsListing (tools : List ToolDescriptor) (count : ℕ)
  | promptsListing (prompts : List PromptDescriptor) (count : ℕ)
  | resourcesListing (resources : List ResourceDescriptor) (count : ℕ)
  | challenge (c : PaymentChallenge)
  | protectedOk (endpoint : JValue) (params : JValue)
deriving DecidableEq

/-- A REST HTTP response.  `calcOk` / `weatherOk` stand for
`200 {success:true, ...payload}`; `missing*` stand for the
`400 {error:"Missing parameters", required, example}` bodies;
`*Failed m` stands for `400 {error:"... failed", message: m}`. -/
structure RestResponse where
  status : ℕ
  body : RestBody
deriving DecidableEq

/-- `GET /mcp/calculate` validation: `if (!operation || !a || !b)`. -/
def calcQueryMissing (q : CalcQuery) : Bool :=
  falsyQ q.operation || falsyQ q.a || falsyQ q.b

/-- `POST /mcp/calculate` validation:
`if (!operation || a === undefined || b === undefined)`. -/
def calcBodyMissing (b : CalcBody) : Bool :=
  !(truthy (jsGet b.operation)) || isUndefF b.a || isUndefF b.b

/-- The model of the JS engine's `SyntaxError` message thrown by
`JSON.parse` on a non-JSON text (its exact wording is abstracted). -/
def jsonParseFailMsg (raw : String) : String :=
  "Unexpected token in JSON: " ++ raw

/-- The calculate routes' extraction step:
`JSON.parse(mcpResult.content[0].text)` then
`res.json({success:true, ...result})`; a thrown error (including the
`SyntaxError` on the calculator's plain `Error: ...` texts, which are
not valid JSON) is caught as `400 {error:"Calculation failed",
message}`.  A weather/timestamp payload cannot reach this wrapper; the
branches are present only to keep the function total. -/
def restWrapCalc (r : Except String MCPResult) : RestResponse :=
  match r with
  | .error e => ⟨400, .calcFailed e⟩
  | .ok m =>
    match m.content.head? with
    | none => ⟨400, .calcFailed "TypeError: Cannot read properties of undefined"⟩
    | some item =>
      match item.text with
      | .calcJson p => ⟨200, .calcOk p⟩
      | .plain s => ⟨400, .calcFailed (jsonParseFailMsg s)⟩
      | _ => ⟨400, .calcFailed (jsonParseFailMsg "")⟩

/-- The weather routes' extraction step (same shape as `restWrapCalc`;
failures are `400 {error:"Weather fetch failed", message}`). -/
def restWrapWeather (r : Except String MCPResult) : RestResponse :=
  match r with
  | .error e => ⟨400, .weatherFailed e⟩
  | .ok m =>
    match m.content.head? with
    | none => ⟨400, .weatherFailed "TypeError: Cannot read properties of undefined"⟩
    | some item =>
      match item.text with
      | .weatherJson w => ⟨200, .weatherOk w⟩
      | .plain s => ⟨400, .weatherFailed (jsonParseFailMsg s)⟩
      | _ => ⟨400, .weatherFailed (jsonParseFailMsg "")⟩

/-- `GET /mcp/calculate`: validate presence, then
`callTool("calculate", {operation, a: parseFloat(a), b: parseFloat(b)})`
and extract. -/
def getCalculateRoute (q : CalcQuery) (env : ServerEnv) : RestResponse :=
  if calcQueryMissing q then ⟨400, .missingCalcGet⟩
  else
    restWrapCalc (callTool (.jstr "calculate")
      { operation := some (.jstr (q.operation.getD ""))
        a := some (parseFloatJV (q.a.getD ""))
        b := some (parseFloatJV (q.b.getD "")) } env)

/-- `POST /mcp/calculate`: validate presence, then pass the raw body
values through unchanged (`callTool("calculate", { operation, a, b })` —
no numeric coercion). -/
def postCalculateRoute (b : CalcBody) (env : ServerEnv) : RestResponse :=
  if calcBodyMissing b then ⟨400, .missingCalcPost⟩
  else
    restWrapCalc (callTool (.jstr "calculate")
      { operation := some (jsGet b.operation)
        a := some (jsGet b.a)
        b := some (jsGet b.b) } env)

/-- `GET /mcp/weather`: `if (!location)` then 400, else
`callTool("get_weather", {location, unit: (unit as string) || "celsius"})`. -/
def getWeatherRoute (q : WeatherQuery) (env : ServerEnv) : RestResponse :=
  if falsyQ q.location then ⟨400, .missingWeatherGet⟩
  else
    restWrapWeather (callTool (.jstr "get_weather")
      { location := some (.jstr (q.location.getD ""))
        unit := some (.jstr (match q.unit with
          | some u => if u = "" then "celsius" else u
          | none => "celsius")) } env)

/-- `POST /mcp/weather`: `if (!location)` then 400, else
`callTool("get_weather", { location, unit: unit || "celsius" })`. -/
def postWeatherRoute (b : WeatherBody) (env : ServerEnv) : RestResponse :=
  if ¬ truthy (jsGet b.location) then ⟨400, .missingWeatherPost⟩
  else
    restWrapWeather (callTool (.jstr "get_weather")
      { location := some (jsGet b.location)
        unit := some (jsOr (jsGet b.unit) (.jstr "celsius")) } env)

/-- `GET /mcp/tools`: `res.json({ tools, count: tools.length })`. -/
def getToolsRoute : RestResponse :=
  ⟨200, .toolsListing getTools getTools.length⟩

/-- `POST /mcp/tools` (same body as the GET route). -/
def postToolsRoute : RestResponse :=
  ⟨200, .toolsListing getTools getTools.length⟩

/-- `GET /mcp/prompts`. -/
def getPromptsRoute : RestResponse :=
  ⟨200, .promptsListing getPrompts getPrompts.length⟩

/-- `POST /mcp/prompts`. -/
def postPromptsRoute : RestResponse :=
  ⟨200, .promptsListing getPrompts getPrompts.length⟩

/-- `GET /mcp/resources`. -/
def getResourcesRoute : RestResponse :=
  ⟨200, .resourcesListing getResources getResources.length⟩

/-- `POST /mcp/resources`. -/
def postResourcesRoute : RestResponse :=
  ⟨200, .resourcesListing getResources getResources.length⟩

/-! ### PaymentGate (spec §4.2/§4.4) and the x402 test endpoint -/

/-- The USDC asset address used throughout the repository. -/
def usdcAsset : String := "0x036CbD53842c5426634e7929541eC2318f3dCF7e"

/-- The fallback payout address (`process.env.ADDRESS || "0x38C8..."`). -/
def defaultPayTo : String := "0x38C867005D271Eb8Ea68F262ac64F1Bf336Ee2cf"

/-- `process.env.ADDRESS || default`. -/
def envAddr (addr : Option String) : String :=
  match addr with
  | none => defaultPayTo
  | some s => if s = "" then defaultPayTo else s

/-- `PAYMENT_CONFIG.tools` of `payment.config.ts`: tool name, price,
network. -/
def paymentConfigTools : List (String × String × String) :=
  [ ("calculate", "$0.1", "base-sepolia")
  , ("weather", "$0.2", "base-sepolia")
  , ("echo", "$0.5", "base-sepolia")
  , ("timestamp", "$0.5", "base-sepolia") ]

/-- Modelled from the spec: the challenge built from a PriceEntry —
scheme `"exact"`, the entry's network/amount/payTo/asset and timeout,
the request's own resource URL, and the `extra` block naming USDC
version 2 (§4.2, §6); the building code (x402-express middleware) is
not part of `src/`. -/
def buildChallenge (resourceUrl : String) (pe : PriceEntry) : PaymentChallenge :=
  { x402Version := 1
    errorText := "X-PAYMENT header is required"
    accepts :=
      [ { scheme := "exact"
          network := pe.network
          maxAmountRequired := pe.amount
          resource := resourceUrl
          description := none
          payTo := pe.payTo
          maxTimeoutSeconds := pe.maxTimeoutSeconds
          asset := pe.asset
          extraName := "USDC"
          extraVersion := "2" } ] }

/-- The PaymentGate's verdict. -/
inductive GateDecision where
  | allow
  | deny (c : PaymentChallenge)
deriving DecidableEq

/-- Modelled from the spec: `check(routeKey, proof)` (§4.2).  No
PriceEntry → `Allow`; entry and absent proof → `Deny` with the
challenge; entry and present proof → the facilitator's verdict
(`verified`), with rejection/timeout denying with the same challenge.
The facilitator client itself is outside the core (§1). -/
def paymentGate (pricing : Option PriceEntry) (resourceUrl : String)
    (proof : Option String) (verified : Bool) : GateDecision :=
  match pricing with
  | none => .allow
  | some pe =>
    match proof with
    | none => .deny (buildChallenge resourceUrl pe)
    | some _ => if verified then .allow else .deny (buildChallenge resourceUrl pe)

/-- Modelled from the spec: `GET /mcp/calculate` behind the gate
(§4.4: validation failures short-circuit before PaymentGate; the
x402-express wiring is not part of `src/`). -/
def gatedGetCalculate (pricing : Option PriceEntry) (resourceUrl : String)
    (proof : Option String) (verified : Bool) (q : CalcQuery) (env : ServerEnv) :
    RestResponse :=
  if calcQueryMissing q then getCalculateRoute q env
  else
    match paymentGate pricing resourceUrl proof verified with
    | .deny c => ⟨402, .challenge c⟩
    | .allow => getCalculateRoute q env

/-- Modelled from the spec: `POST /mcp/calculate` behind the gate. -/
def gatedPostCalculate (pricing : Option PriceEntry) (resourceUrl : String)
    (proof : Option String) (verified : Bool) (b : CalcBody) (env : ServerEnv) :
    RestResponse :=
  if calcBodyMissing b then postCalculateRoute b env
  else
    match paymentGate pricing resourceUrl proof verified with
    | .deny c => ⟨402, .challenge c⟩
    | .allow => postCalculateRoute b env

/-- Modelled from the spec: `GET /mcp/weather` behind the gate. -/
def gatedGetWeather (pricing : Option PriceEntry) (resourceUrl : String)
    (proof : Option String) (verified : Bool) (q : WeatherQuery) (env : ServerEnv) :
    RestResponse :=
  if falsyQ q.location then getWeatherRoute q env
  else
    match paymentGate pricing resourceUrl proof verified with
    | .deny c => ⟨402, .challenge c⟩
    | .allow => getWeatherRoute q env

/-- Modelled from the spec: `POST /mcp/weather` behind the gate. -/
def gatedPostWeather (pricing : Option PriceEntry) (resourceUrl : String)
    (proof : Option String) (verified : Bool) (b : WeatherBody) (env : ServerEnv) :
    RestResponse :=
  if ¬ truthy (jsGet b.location) then postWeatherRoute b env
  else
    match paymentGate pricing resourceUrl proof verified with
    | .deny c => ⟨402, .challenge c⟩
    | .allow => postWeatherRoute b env

/-- Is `req` a shape-valid `tools/call` request (valid envelope and a
truthy `name`)? Spec §4.1/§4.4: envelope and `name` validation precede
the gate; their failures short-circuit. -/
def toolsCallValid (req : RpcRequest) : Prop :=
  jsGet req.jsonrpc = .jstr "2.0" ∧ jsGet req.method = .jstr "tools/call" ∧
    ∃ p, req.params = some p ∧ truthy (jsGet p.name) = true

instance (req : RpcRequest) : Decidable (toolsCallValid req) := by
  unfold toolsCallValid
  cases h : req.params with
  | none =>
    refine .isFalse ?hf
    rintro ⟨-, -, p, hp, -⟩
    simp [h] at hp
  | some p =>
    refine decidable_of_iff
      (jsGet req.jsonrpc = .jstr "2.0" ∧ jsGet req.method = .jstr "tools/call" ∧
        truthy (jsGet p.name) = true) ?hi
    constructor
    · rintro ⟨h1, h2, h3⟩; exact ⟨h1, h2, p, rfl, h3⟩
    · rintro ⟨h1, h2, p2, hp2, h3⟩
      cases hp2
      exact ⟨h1, h2, h3⟩

/-- Modelled from the spec: `POST /mcp` behind the gate.  `tools/call`
is priced (§4.4); `initialize` and the `*/list` methods bypass the gate;
validation failures short-circuit to the ungated handler's own error
rendering. -/
def gatedMcpPost (pricing : Option PriceEntry) (resourceUrl : String)
    (proof : Option String) (verified : Bool) (req : RpcRequest) (env : ServerEnv) :
    RpcResponse :=
  if toolsCallValid req then
    match paymentGate pricing resourceUrl proof verified with
    | .deny c => ⟨402, .x402 c⟩
    | .allow => handleMcpPost req env
  else handleMcpPost req env

/-- The body of `POST /test/protected-call`. -/
structure ProtectedCallBody where
  endpoint : Option JValue := none
  params : Option JValue := none
deriving DecidableEq

/-- `POST /test/protected-call` (`health.routes.ts`): without an
`x-payment` header, a literal 402 challenge whose `resource` echoes
`http://localhost:3000` plus the body's `endpoint` and whose `payTo` is
`process.env.ADDRESS || default`; with the header, a mock success. -/
def protectedCallRoute (xPayment : Option String) (address : Option String)
    (body : ProtectedCallBody) : RestResponse :=
  if falsyQ xPayment then
    ⟨402, .challenge
      { x402Version := 1
        errorText := "X-PAYMENT header is required"
        accepts :=
          [ { scheme := "exact"
              network := "base-sepolia"
              maxAmountRequired := "1000"
              resource := "http://localhost:3000" ++ jsToString (jsGet body.endpoint)
              description := some "Payment required for this resource"
              payTo := envAddr address
              maxTimeoutSeconds := 60
              asset := usdcAsset
              extraName := "USDC"
              extraVersion := "2" } ] }⟩
  else
    ⟨200, .protectedOk (jsGet body.endpoint) (jsGet body.params)⟩

/-! ### Concrete fixtures for witnesses and counterexamples -/

/-- A fixed per-request environment for closed statements. -/
def envA : ServerEnv :=
  ⟨0, 0, 0, 0, "2025-01-01T00:00:00.000Z", 1735689600, "1/1/2025, 12:00:00 AM"⟩

/-- A concrete PriceEntry (the calculate route's `$0.1` in minor
units). -/
def peA : PriceEntry :=
  ⟨"100000", "base-sepolia", defaultPayTo, usdcAsset, 60⟩

/-! ### Helper lemmas -/

/-- String concatenation is associative (used to normalise the
`expression` templates). -/
theorem strAppendAssoc (x y z : String) : (x ++ y) ++ z = x ++ (y ++ z) := by
  apply String.ext
  simp [String.data_append]

/-- Every branch of `handleCalculate` returns exactly one `"text"`
content item. -/
theorem handleCalculate_content_shape (args : ToolArgs) :
    ∃ t, (handleCalculate args).content = [⟨"text", t⟩] := by
  unfold handleCalculate
  dsimp only
  split
  · exact ⟨_, rfl⟩
  · split
    · exact ⟨_, rfl⟩
    · split
      · exact ⟨_, rfl⟩
      · split
        · split
          · exact ⟨_, rfl⟩
          · exact ⟨_, rfl⟩
        · exact ⟨_, rfl⟩

/-- Every branch of `handleTimestamp` returns exactly one `"text"`
content item. -/
theorem handleTimestamp_content_shape (args : ToolArgs) (env : ServerEnv) :
    ∃ t, (handleTimestamp args env).content = [⟨"text", t⟩] :=
  ⟨_, rfl⟩

/-! ### Claim theorems -/

/-- C4: for every well-formed calculate call with operation in
add/subtract/multiply and numeric `a`, `b`, the result is the exact
arithmetic value and the payload is
`{operation, operands:[a,b], result, expression:"a op b = result"}`;
in particular `GET /calculate?operation=add&a=10&b=5` on a free route
(no PriceEntry) returns `200 {success:true, operation:"add",
operands:[10,5], result:15, expression:"10 add 5 = 15"}`. -/
theorem calculate_exact_arithmetic (a b : ℚ) (env : ServerEnv) (url : String)
    (proof : Option String) (v : Bool) :
    handleCalculate { operation := some (.jstr "add"), a := some (.jnum a), b := some (.jnum b) }
      = ⟨[⟨"text", .calcJson ⟨"add", [.jnum a, .jnum b], .jnum (a + b),
          ratToString a ++ " add " ++ ratToString b ++ " = " ++ ratToString (a + b)⟩⟩]⟩
    ∧ handleCalculate { operation := some (.jstr "subtract"), a := some (.jnum a), b := some (.jnum b) }
      = ⟨[⟨"text", .calcJson ⟨"subtract", [.jnum a, .jnum b], .jnum (a - b),
          ratToString a ++ " subtract " ++ ratToString b ++ " = " ++ ratToString (a - b)⟩⟩]⟩
    ∧ handleCalculate { operation := some (.jstr "multiply"), a := some (.jnum a), b := some (.jnum b) }
      = ⟨[⟨"text", .calcJson ⟨"multiply", [.jnum a, .jnum b], .jnum (a * b),
          ratToString a ++ " multiply " ++ ratToString b ++ " = " ++ ratToString (a * b)⟩⟩]⟩
    ∧ getCalculateRoute ⟨some "add", some "10", some "5"⟩ env
      = ⟨200, .calcOk ⟨"add", [.jnum 10, .jnum 5], .jnum 15, "10 add 5 = 15"⟩⟩
    ∧ gatedGetCalculate none url proof v ⟨some "add", some "10", some "5"⟩ env
      = ⟨200, .calcOk ⟨"add", [.jnum 10, .jnum 5], .jnum 15, "10 add 5 = 15"⟩⟩ := by
  refine ⟨?h1, ?h2, ?h3, ?h4, ?h5⟩
  case h1 =>
    show mkCalcOk "add" (.jnum a) (.jnum b) (jsAdd (.jnum a) (.jnum b)) = _
    simp [mkCalcOk, jsAdd, toNumber, jsToString, strAppendAssoc]
  case h2 =>
    show mkCalcOk "subtract" (.jnum a) (.jnum b) (jsSub (.jnum a) (.jnum b)) = _
    simp [mkCalcOk, jsSub, toNumber, jsToString, strAppendAssoc]
  case h3 =>
    show mkCalcOk "multiply" (.jnum a) (.jnum b) (jsMul (.jnum a) (.jnum b)) = _
    simp [mkCalcOk, jsMul, toNumber, jsToString, strAppendAssoc]
  case h4 => rfl
  case h5 =>
    have hfree : gatedGetCalculate none url proof v ⟨some "add", some "10", some "5"⟩ env
        = getCalculateRoute ⟨some "add", some "10", some "5"⟩ env := by
      unfold gatedGetCalculate
      split
      · rfl
      · rfl
    rw [hfree]
    rfl

/-- C2 (counterexample): `tools/call` of `calculate` with
`operation:"divide", a:1, b:0` over JSON-RPC yields HTTP 200 with a
`result` envelope whose content is the error text — a success-shaped
response, not an `InvalidParams`-class error response. -/
theorem divide_by_zero_jsonrpc_counterexample :
    handleMcpPost ⟨some (.jstr "2.0"), some (.jstr "tools/call"),
        some ⟨some (.jstr "calculate"),
          some { operation := some (.jstr "divide"), a := some (.jnum 1), b := some (.jnum 0) }⟩,
        some (.jnum 1)⟩ envA
      = ⟨200, .result (.jnum 1) (.callRes (plainResult "Error: Division by zero is not allowed"))⟩
    ∧ (handleMcpPost ⟨some (.jstr "2.0"), some (.jstr "tools/call"),
        some ⟨some (.jstr "calculate"),
          some { operation := some (.jstr "divide"), a := some (.jnum 1), b := some (.jnum 0) }⟩,
        some (.jnum 1)⟩ envA).status = 200 := by
  exact ⟨rfl, rfl⟩

/-- C2 (amended): `divide` with numeric `b = 0` never yields a numeric
result on any path: the handler returns the defined error text
`"Error: Division by zero is not allowed"`; both REST shapes surface it
as `400 Calculation failed` (the text is not valid JSON); the JSON-RPC
shape surfaces it as a 200 `result` envelope carrying the error text. -/
theorem divide_by_zero_never_numeric (a : ℚ) (env : ServerEnv) (i : JValue) :
    handleCalculate { operation := some (.jstr "divide"), a := some (.jnum a), b := some (.jnum 0) }
      = plainResult "Error: Division by zero is not allowed"
    ∧ postCalculateRoute ⟨some (.jstr "divide"), some (.jnum a), some (.jnum 0)⟩ env
      = ⟨400, .calcFailed (jsonParseFailMsg "Error: Division by zero is not allowed")⟩
    ∧ getCalculateRoute ⟨some "divide", some "10", some "0"⟩ env
      = ⟨400, .calcFailed (jsonParseFailMsg "Error: Division by zero is not allowed")⟩
    ∧ handleMcpPost ⟨some (.jstr "2.0"), some (.jstr "tools/call"),
        some ⟨some (.jstr "calculate"),
          some { operation := some (.jstr "divide"), a := some (.jnum a), b := some (.jnum 0) }⟩,
        some i⟩ env
      = ⟨200, .result i (.callRes (plainResult "Error: Division by zero is not allowed"))⟩ := by
  exact ⟨rfl, rfl, rfl, rfl⟩

/-- C6 (counterexample): a `tools/call` of `echo` whose arguments lack
the (schema-required) `message` field succeeds with HTTP 200 and the
text `"Echo: undefined"` — it does not fail with `InvalidParams`. -/
theorem echo_missing_message_counterexample :
    handleMcpPost ⟨some (.jstr "2.0"), some (.jstr "tools/call"),
        some ⟨some (.jstr "echo"), some {}⟩, some (.jnum 2)⟩ envA
      = ⟨200, .result (.jnum 2) (.callRes (plainResult "Echo: undefined"))⟩
    ∧ (handleMcpPost ⟨some (.jstr "2.0"), some (.jstr "tools/call"),
        some ⟨some (.jstr "echo"), some {}⟩, some (.jnum 2)⟩ envA).status = 200 := by
  exact ⟨rfl, rfl⟩

/-- C6 (amended): with a `message` present the returned text is exactly
`"Echo: "` followed by the message verbatim, on the direct `callTool`
path and through the JSON-RPC `tools/call` shape (both `POST /mcp`
copies in the source are the same function, embedded once as
`handleMcpPost`); with `message` missing the handler does not validate
and succeeds with `"Echo: undefined"`. -/
theorem echo_verbatim (msg : String) (env : ServerEnv) (i : JValue) :
    callTool (.jstr "echo") { message := some (.jstr msg) } env
      = .ok (plainResult ("Echo: " ++ msg))
    ∧ handleMcpPost ⟨some (.jstr "2.0"), some (.jstr "tools/call"),
        some ⟨some (.jstr "echo"), some { message := some (.jstr msg) }⟩, some i⟩ env
      = ⟨200, .result i (.callRes (plainResult ("Echo: " ++ msg)))⟩
    ∧ handleMcpPost ⟨some (.jstr "2.0"), some (.jstr "tools/call"),
        some ⟨some (.jstr "echo"), some { message := some (.jstr "hi") }⟩, some i⟩ env
      = ⟨200, .result i (.callRes (plainResult "Echo: hi"))⟩
    ∧ callTool (.jstr "echo") { message := none } env
      = .ok (plainResult "Echo: undefined") := by
  exact ⟨rfl, rfl, rfl, rfl⟩

/-- C7 (counterexample): `operation=add, a=10, b=5` carried as strings
is accepted by both shapes but the payloads differ: the GET route
coerces with `parseFloat` and returns `15`, while the POST route passes
the strings through and JavaScript `+` concatenates them to `"105"`. -/
theorem get_post_divergence_counterexample :
    getCalculateRoute ⟨some "add", some "10", some "5"⟩ envA
      = ⟨200, .calcOk ⟨"add", [.jnum 10, .jnum 5], .jnum 15, "10 add 5 = 15"⟩⟩
    ∧ postCalculateRoute ⟨some (.jstr "add"), some (.jstr "10"), some (.jstr "5")⟩ envA
      = ⟨200, .calcOk ⟨"add", [.jstr "10", .jstr "5"], .jstr "105", "10 add 5 = 105"⟩⟩
    ∧ (⟨"add", [JValue.jnum 10, .jnum 5], .jnum 15, "10 add 5 = 15"⟩ : CalcPayload)
      ≠ ⟨"add", [.jstr "10", .jstr "5"], .jstr "105", "10 add 5 = 105"⟩ := by
  refine ⟨rfl, rfl, ?hne⟩
  decide

/-- C7 (amended): GET (query string) and POST (body) accept the same
inputs and produce identical success payloads whenever the POST body
carries the numeric values that the GET query strings parse to — for
`calculate`,  a numeric `a`, `b`; for `weather`, any location, with and
without an explicit unit.  (A POST body carrying the numbers as strings
is also accepted but diverges; see the counterexample.) -/
theorem get_post_equivalence_numeric
    (op aq bq : String) (av bv : ℚ) (loc u : String) (env : ServerEnv)
    (hop : op ≠ "") (ha : parseFloatJS aq = some av) (hb : parseFloatJS bq = some bv)
    (hloc : loc ≠ "") (hu : u ≠ "") :
    getCalculateRoute ⟨some op, some aq, some bq⟩ env
      = postCalculateRoute ⟨some (.jstr op), some (.jnum av), some (.jnum bv)⟩ env
    ∧ getWeatherRoute ⟨some loc, some u⟩ env
      = postWeatherRoute ⟨some (.jstr loc), some (.jstr u)⟩ env
    ∧ getWeatherRoute ⟨some loc, none⟩ env
      = postWeatherRoute ⟨some (.jstr loc), none⟩ env := by
  have haq : aq ≠ "" := by
    intro hx
    rw [hx] at ha
    exact Option.noConfusion ha
  have hbq : bq ≠ "" := by
    intro hx
    rw [hx] at hb
    exact Option.noConfusion hb
  refine ⟨?hc, ?hw1, ?hw2⟩
  case hc =>
    simp only [getCalculateRoute, postCalculateRoute, calcQueryMissing, calcBodyMissing,
      falsyQ, truthy, isUndefF, jsGet, Option.getD, parseFloatJV, ha, hb, haq, hbq, hop,
      decide_eq_true_eq, Bool.or_eq_true, Bool.not_eq_true]
    simp [haq, hbq, hop]
  case hw1 =>
    simp only [getWeatherRoute, postWeatherRoute, falsyQ, truthy, jsGet, Option.getD, jsOr]
    simp [hloc, hu]
  case hw2 =>
    simp only [getWeatherRoute, postWeatherRoute, falsyQ, truthy, jsGet, Option.getD, jsOr]
    simp [hloc]

/-- C8 (counterexample): a request with `jsonrpc:"1.0"` and the present
id `0` is answered with `-32600` but the error envelope echoes `null`,
because `id || 0` treats the falsy id `0` as absent — the claim's "null
only when the id is absent" fails. -/
theorem invalid_jsonrpc_id_zero_counterexample :
    handleMcpPost ⟨some (.jstr "1.0"), some (.jstr "tools/list"), none, some (.jnum 0)⟩ envA
      = ⟨400, .rpcErr .jnull (-32600) "Invalid Request: jsonrpc must be \x272.0\x27"⟩
    ∧ JValue.jnull ≠ .jnum 0 := by
  refine ⟨rfl, ?hne⟩
  decide

/-- C8 (amended): whenever the top-level `jsonrpc` field is absent or
differs from `"2.0"`, the response is HTTP 400 with code `-32600`,
produced before any further processing (the response does not depend on
`method`, `params` or the environment), and the envelope echoes the
request id when that id is truthy, `null` when the id is absent — and
also `null` for a present falsy id such as `0`. -/
theorem invalid_jsonrpc_error_envelope (req : RpcRequest) (m : Option JValue)
    (p : Option RpcParams) (env env2 : ServerEnv)
    (h : ¬ jsGet req.jsonrpc = .jstr "2.0") :
    handleMcpPost req env
      = ⟨400, .rpcErr (jsOr (jsGet req.id) .jnull) (-32600)
          "Invalid Request: jsonrpc must be \x272.0\x27"⟩
    ∧ handleMcpPost ⟨req.jsonrpc, m, p, req.id⟩ env2 = handleMcpPost req env
    ∧ (truthy (jsGet req.id) = true → jsOr (jsGet req.id) .jnull = jsGet req.id)
    ∧ (req.id = none → jsOr (jsGet req.id) .jnull = .jnull) := by
  refine ⟨?he, ?hind, ?hecho, ?habsent⟩
  case he =>
    unfold handleMcpPost
    rw [if_pos h]
  case hind =>
    unfold handleMcpPost
    rw [if_pos h, if_pos h]
  case hecho =>
    intro ht
    unfold jsOr
    rw [if_pos ht]
  case habsent =>
    intro hid
    unfold jsOr
    rw [hid]
    rfl

/-- C5 (counterexample): `tools/call` with the unregistered tool name
`"nonexistent"` is answered with HTTP 400 and JSON-RPC code `-32602`
(the thrown `Unknown tool` is mapped to the InvalidParams code), not
with `-32601` / 404 / 501 as the claim states. -/
theorem unknown_tool_code_counterexample :
    handleMcpPost ⟨some (.jstr "2.0"), some (.jstr "tools/call"),
        some ⟨some (.jstr "nonexistent"), none⟩, some (.jnum 7)⟩ envA
      = ⟨400, .rpcErr (.jnum 7) (-32602) "Unknown tool: nonexistent"⟩
    ∧ (-32602 : ℤ) ≠ -32601 ∧ (400 : ℕ) ≠ 404 ∧ (400 : ℕ) ≠ 501 := by
  refine ⟨rfl, ?h1, ?h2, ?h3⟩ <;> decide

/-- C5 (amended): a JSON-RPC method outside the five supported ones is
answered `501` with code `-32601` and a message carrying the offending
method string; a `tools/call` with an unregistered (non-empty) tool
name is answered `400` with code `-32602` and a message carrying the
offending tool name. -/
theorem unknown_method_and_tool_errors (m tn : String) (p : Option RpcParams)
    (args : Option ToolArgs) (i : JValue) (env : ServerEnv) :
    (m ∉ ["initialize", "tools/list", "prompts/list", "resources/list", "tools/call"] →
      handleMcpPost ⟨some (.jstr "2.0"), some (.jstr m), p, some i⟩ env
        = ⟨501, .rpcErr i (-32601) ("Method not implemented: " ++ m)⟩)
    ∧ (tn ∉ ["calculate", "get_weather", "echo", "get_timestamp"] → tn ≠ "" →
      handleMcpPost ⟨some (.jstr "2.0"), some (.jstr "tools/call"),
          some ⟨some (.jstr tn), args⟩, some i⟩ env
        = ⟨400, .rpcErr i (-32602) ("Unknown tool: " ++ tn)⟩) := by
  constructor
  · intro hm
    simp only [List.mem_cons, List.mem_singleton] at hm
    push_neg at hm
    obtain ⟨h1, h2, h3, h4, h5, -⟩ := hm
    simp [handleMcpPost, jsGet, jsToString, h1, h2, h3, h4, h5]
  · intro htn hne
    simp only [List.mem_cons, List.mem_singleton] at htn
    push_neg at htn
    obtain ⟨h1, h2, h3, h4, -⟩ := htn
    simp [handleMcpPost, callTool, jsGet, jsToString, truthy, hne, h1, h2, h3, h4]

/-- C9: capability listing is pure and deterministic — the three
`*/list` methods return the fixed registry content with a 200 result,
independently of `params`, the request id and the per-request
environment (so any two calls within a process lifetime, over either
transport, see identical capability content); the REST listing routes
return the same `getTools`/`getPrompts`/`getResources` content for GET
and POST; and the SSE transport's `setupHandlers` copies of the
catalogs coincide with them. -/
theorem capability_listing_deterministic (p1 p2 : Option RpcParams)
    (i1 : Option JValue) (env1 env2 : ServerEnv) :
    handleMcpPost ⟨some (.jstr "2.0"), some (.jstr "tools/list"), p1, i1⟩ env1
      = ⟨200, .result (jsGet i1) (.toolsRes getTools)⟩
    ∧ handleMcpPost ⟨some (.jstr "2.0"), some (.jstr "prompts/list"), p1, i1⟩ env1
      = ⟨200, .result (jsGet i1) (.promptsRes getPrompts)⟩
    ∧ handleMcpPost ⟨some (.jstr "2.0"), some (.jstr "resources/list"), p1, i1⟩ env1
      = ⟨200, .result (jsGet i1) (.resourcesRes getResources)⟩
    ∧ handleMcpPost ⟨some (.jstr "2.0"), some (.jstr "tools/list"), p1, i1⟩ env1
      = handleMcpPost ⟨some (.jstr "2.0"), some (.jstr "tools/list"), p2, i1⟩ env2
    ∧ handleMcpPost ⟨some (.jstr "2.0"), some (.jstr "prompts/list"), p1, i1⟩ env1
      = handleMcpPost ⟨some (.jstr "2.0"), some (.jstr "prompts/list"), p2, i1⟩ env2
    ∧ handleMcpPost ⟨some (.jstr "2.0"), some (.jstr "resources/list"), p1, i1⟩ env1
      = handleMcpPost ⟨some (.jstr "2.0"), some (.jstr "resources/list"), p2, i1⟩ env2
    ∧ getToolsRoute = postToolsRoute
    ∧ getToolsRoute.body = .toolsListing getTools 4
    ∧ getPromptsRoute = postPromptsRoute
    ∧ getResourcesRoute = postResourcesRoute
    ∧ getTools = setupHandlersTools
    ∧ getPrompts = setupHandlersPrompts
    ∧ getResources = setupHandlersResources := by
  exact ⟨rfl, rfl, rfl, rfl, rfl, rfl, rfl, rfl, rfl, rfl, rfl, rfl, rfl⟩

/-- C10: for each of the four registered tool names and any arguments,
`callTool` returns (without throwing) a result whose `content` is a
one-element array whose first element has type `"text"` (so
`mcpResult.content[0].text` in the REST handlers is always in bounds),
and `callTool` throws exactly when the name is outside that set. -/
theorem callTool_wellformed (v : JValue) (args : ToolArgs) (env : ServerEnv) :
    ((v = .jstr "calculate" ∨ v = .jstr "get_weather" ∨ v = .jstr "echo" ∨
        v = .jstr "get_timestamp") →
      ∃ r, callTool v args env = .ok r ∧ r.content.length = 1 ∧
        ∃ item, r.content.head? = some item ∧ item.ctype = "text")
    ∧ ((∃ e, callTool v args env = .error e) ↔
      ¬(v = .jstr "calculate" ∨ v = .jstr "get_weather" ∨ v = .jstr "echo" ∨
        v = .jstr "get_timestamp")) := by
  constructor
  · rintro (rfl | rfl | rfl | rfl)
    · obtain ⟨t, ht⟩ := handleCalculate_content_shape args
      exact ⟨handleCalculate args, rfl, by rw [ht]; rfl, ⟨"text", t⟩, by rw [ht]; rfl, rfl⟩
    · exact ⟨handleWeather args env, rfl, rfl, _, rfl, rfl⟩
    · exact ⟨handleEcho args, rfl, rfl, _, rfl, rfl⟩
    · exact ⟨handleTimestamp args env, rfl, rfl, _, rfl, rfl⟩
  · constructor
    · rintro ⟨e, he⟩ (rfl | rfl | rfl | rfl) <;> exact Except.noConfusion he
    · intro hv
      push_neg at hv
      obtain ⟨h1, h2, h3, h4⟩ := hv
      unfold callTool
      rw [if_neg h1, if_neg h2, if_neg h3, if_neg h4]
      exact ⟨_, rfl⟩

/-- C3: a request missing a required parameter is answered
`400`/InvalidParams by the validation step itself: the response is a
constant that does not depend on the pricing table, the payment proof,
the facilitator verdict or the environment — so no payment check is
performed, the tool handler is never executed, and the status is 400,
never 402.  (PaymentGate ordering modelled from spec §4.4.) -/
theorem missing_params_never_402 (pricing : Option PriceEntry) (url : String)
    (proof : Option String) (v : Bool) (env : ServerEnv) (q : CalcQuery)
    (cb : CalcBody) (wq : WeatherQuery) (wb : WeatherBody) (req : RpcRequest)
    (p : RpcParams) :
    (calcQueryMissing q = true →
      gatedGetCalculate pricing url proof v q env = ⟨400, .missingCalcGet⟩)
    ∧ (calcBodyMissing cb = true →
      gatedPostCalculate pricing url proof v cb env = ⟨400, .missingCalcPost⟩)
    ∧ (falsyQ wq.location = true →
      gatedGetWeather pricing url proof v wq env = ⟨400, .missingWeatherGet⟩)
    ∧ (truthy (jsGet wb.location) = false →
      gatedPostWeather pricing url proof v wb env = ⟨400, .missingWeatherPost⟩)
    ∧ (jsGet req.jsonrpc = .jstr "2.0" → jsGet req.method = .jstr "tools/call" →
      req.params = some p → truthy (jsGet p.name) = false →
      gatedMcpPost pricing url proof v req env
        = ⟨400, .rpcErr (jsGet req.id) (-32602) "Invalid params: \x27name\x27 is required"⟩) := by
  refine ⟨?hg, ?hp, ?hwg, ?hwp, ?hrpc⟩
  case hg =>
    intro h
    unfold gatedGetCalculate getCalculateRoute
    rw [if_pos h, if_pos h]
  case hp =>
    intro h
    unfold gatedPostCalculate postCalculateRoute
    rw [if_pos h, if_pos h]
  case hwg =>
    intro h
    unfold gatedGetWeather getWeatherRoute
    rw [if_pos h, if_pos h]
  case hwp =>
    intro h
    unfold gatedPostWeather postWeatherRoute
    have h2 : ¬ truthy (jsGet wb.location) = true := by
      rw [h]; exact Bool.false_ne_true
    rw [if_pos h2, if_pos h2]
  case hrpc =>
    intro hj hm hp hname
    have hnv : ¬ toolsCallValid req := by
      rintro ⟨-, -, p2, hp2, ht⟩
      rw [hp] at hp2
      cases hp2
      rw [hname] at ht
      exact Bool.false_ne_true ht
    unfold gatedMcpPost
    rw [if_neg hnv]
    unfold handleMcpPost
    rw [if_neg (by rw [hj]; exact fun hx => hx rfl)]
    · simp only [hm, hp]
      have hne1 : ¬ (JValue.jstr "tools/call" = .jstr "initialize") := by decide
      have hne2 : ¬ (JValue.jstr "tools/call" = .jstr "tools/list") := by decide
      have hne3 : ¬ (JValue.jstr "tools/call" = .jstr "prompts/list") := by decide
      have hne4 : ¬ (JValue.jstr "tools/call" = .jstr "resources/list") := by decide
      rw [if_neg hne1, if_neg hne2, if_neg hne3, if_neg hne4]
      simp [hname]

/-- A no-proof request to the gated calculate GET route is either the
validation 400 or the 402 challenge. -/
theorem gatedGetCalculate_no_proof_cases (pe : PriceEntry) (url : String)
    (v : Bool) (q : CalcQuery) (env : ServerEnv) :
    gatedGetCalculate (some pe) url none v q env = ⟨400, .missingCalcGet⟩
    ∨ gatedGetCalculate (some pe) url none v q env
      = ⟨402, .challenge (buildChallenge url pe)⟩ := by
  by_cases h : calcQueryMissing q = true
  · left
    unfold gatedGetCalculate getCalculateRoute
    rw [if_pos h, if_pos h]
  · right
    unfold gatedGetCalculate
    rw [if_neg h]
    rfl

/-- A no-proof request to the gated calculate POST route is either the
validation 400 or the 402 challenge. -/
theorem gatedPostCalculate_no_proof_cases (pe : PriceEntry) (url : String)
    (v : Bool) (cb : CalcBody) (env : ServerEnv) :
    gatedPostCalculate (some pe) url none v cb env = ⟨400, .missingCalcPost⟩
    ∨ gatedPostCalculate (some pe) url none v cb env
      = ⟨402, .challenge (buildChallenge url pe)⟩ := by
  by_cases h : calcBodyMissing cb = true
  · left
    unfold gatedPostCalculate postCalculateRoute
    rw [if_pos h, if_pos h]
  · right
    unfold gatedPostCalculate
    rw [if_neg h]
    rfl

/-- A no-proof request to the gated weather GET route is either the
validation 400 or the 402 challenge. -/
theorem gatedGetWeather_no_proof_cases (pe : PriceEntry) (url : String)
    (v : Bool) (wq : WeatherQuery) (env : ServerEnv) :
    gatedGetWeather (some pe) url none v wq env = ⟨400, .missingWeatherGet⟩
    ∨ gatedGetWeather (some pe) url none v wq env
      = ⟨402, .challenge (buildChallenge url pe)⟩ := by
  by_cases h : falsyQ wq.location = true
  · left
    unfold gatedGetWeather getWeatherRoute
    rw [if_pos h, if_pos h]
  · right
    unfold gatedGetWeather
    rw [if_neg h]
    rfl

/-- A no-proof request to the gated weather POST route is either the
validation 400 or the 402 challenge. -/
theorem gatedPostWeather_no_proof_cases (pe : PriceEntry) (url : String)
    (v : Bool) (wb : WeatherBody) (env : ServerEnv) :
    gatedPostWeather (some pe) url none v wb env = ⟨400, .missingWeatherPost⟩
    ∨ gatedPostWeather (some pe) url none v wb env
      = ⟨402, .challenge (buildChallenge url pe)⟩ := by
  by_cases h : ¬ truthy (jsGet wb.location) = true
  · left
    unfold gatedPostWeather postWeatherRoute
    rw [if_pos h, if_pos h]
  · right
    unfold gatedPostWeather
    rw [if_neg h]
    rfl

/-- An invalid `tools/call` request (method is `tools/call` but the
envelope or `name` validation fails) is never answered 200 by the
ungated handler. -/
theorem handleMcpPost_invalid_toolsCall_not200 (req : RpcRequest) (env : ServerEnv)
    (hm : jsGet req.method = .jstr "tools/call") (hnv : ¬ toolsCallValid req) :
    (handleMcpPost req env).status ≠ 200 := by
  unfold handleMcpPost
  by_cases hj : jsGet req.jsonrpc = .jstr "2.0"
  · rw [if_neg (by rw [hj]; exact fun hx => hx rfl)]
    simp only [hm]
    have hne1 : ¬ (JValue.jstr "tools/call" = .jstr "initialize") := by decide
    have hne2 : ¬ (JValue.jstr "tools/call" = .jstr "tools/list") := by decide
    have hne3 : ¬ (JValue.jstr "tools/call" = .jstr "prompts/list") := by decide
    have hne4 : ¬ (JValue.jstr "tools/call" = .jstr "resources/list") := by decide
    rw [if_neg hne1, if_neg hne2, if_neg hne3, if_neg hne4, if_pos trivial]
    cases hparams : req.params with
    | none => simp
    | some p =>
      by_cases hn : truthy (jsGet p.name) = true
      · exact absurd ⟨hj, hm, p, hparams, hn⟩ hnv
      · simp [hn]
  · rw [if_pos hj]
    simp

/-- C1: on every priced route — each gated REST tool endpoint,
`tools/call` over JSON-RPC, and the literal `POST /test/protected-call`
endpoint — a request without a payment-proof header that passes
parameter validation is answered HTTP 402 whose body is the challenge
built from the route's PriceEntry, with `accepts[0].resource` the
request's own resource URL and `accepts[0].payTo`/`asset` the
configured values; such a request is never answered 200, and the REST
routes never answer 500 (a validation failure yields the 400 of C3). -/
theorem priced_route_without_proof_yields_402 (pe : PriceEntry) (url : String)
    (v : Bool) (env : ServerEnv) (q : CalcQuery) (cb : CalcBody)
    (wq : WeatherQuery) (wb : WeatherBody) (req : RpcRequest)
    (addr : Option String) (pb : ProtectedCallBody) :
    (calcQueryMissing q = false →
      gatedGetCalculate (some pe) url none v q env
        = ⟨402, .challenge (buildChallenge url pe)⟩)
    ∧ (gatedGetCalculate (some pe) url none v q env).status ≠ 200
    ∧ (gatedGetCalculate (some pe) url none v q env).status ≠ 500
    ∧ (calcBodyMissing cb = false →
      gatedPostCalculate (some pe) url none v cb env
        = ⟨402, .challenge (buildChallenge url pe)⟩)
    ∧ (gatedPostCalculate (some pe) url none v cb env).status ≠ 200
    ∧ (gatedPostCalculate (some pe) url none v cb env).status ≠ 500
    ∧ (falsyQ wq.location = false →
      gatedGetWeather (some pe) url none v wq env
        = ⟨402, .challenge (buildChallenge url pe)⟩)
    ∧ (gatedGetWeather (some pe) url none v wq env).status ≠ 200
    ∧ (gatedGetWeather (some pe) url none v wq env).status ≠ 500
    ∧ (truthy (jsGet wb.location) = true →
      gatedPostWeather (some pe) url none v wb env
        = ⟨402, .challenge (buildChallenge url pe)⟩)
    ∧ (gatedPostWeather (some pe) url none v wb env).status ≠ 200
    ∧ (gatedPostWeather (some pe) url none v wb env).status ≠ 500
    ∧ (toolsCallValid req →
      gatedMcpPost (some pe) url none v req env
        = ⟨402, .x402 (buildChallenge url pe)⟩)
    ∧ (jsGet req.method = .jstr "tools/call" →
      (gatedMcpPost (some pe) url none v req env).status ≠ 200)
    ∧ (buildChallenge url pe).accepts.map
        (fun acc => (acc.resource, acc.payTo, acc.asset))
      = [(url, pe.payTo, pe.asset)]
    ∧ protectedCallRoute none addr pb
      = ⟨402, .challenge ⟨1, "X-PAYMENT header is required",
          [⟨"exact", "base-sepolia", "1000",
            "http://localhost:3000" ++ jsToString (jsGet pb.endpoint),
            some "Payment required for this resource", envAddr addr, 60, usdcAsset,
            "USDC", "2"⟩]⟩⟩ := by
  refine ⟨?cg402, ?cg200, ?cg500, ?cp402, ?cp200, ?cp500, ?wg402, ?wg200, ?wg500,
    ?wp402, ?wp200, ?wp500, ?rpc402, ?rpc200, ?cfields, ?ptest⟩
  case cg402 =>
    intro h
    unfold gatedGetCalculate
    rw [if_neg (by rw [h]; exact Bool.false_ne_true)]
    rfl
  case cg200 =>
    rcases gatedGetCalculate_no_proof_cases pe url v q env with h | h <;>
      rw [h] <;> simp
  case cg500 =>
    rcases gatedGetCalculate_no_proof_cases pe url v q env with h | h <;>
      rw [h] <;> simp
  case cp402 =>
    intro h
    unfold gatedPostCalculate
    rw [if_neg (by rw [h]; exact Bool.false_ne_true)]
    rfl
  case cp200 =>
    rcases gatedPostCalculate_no_proof_cases pe url v cb env with h | h <;>
      rw [h] <;> simp
  case cp500 =>
    rcases gatedPostCalculate_no_proof_cases pe url v cb env with h | h <;>
      rw [h] <;> simp
  case wg402 =>
    intro h
    unfold gatedGetWeather
    rw [if_neg (by rw [h]; exact Bool.false_ne_true)]
    rfl
  case wg200 =>
    rcases gatedGetWeather_no_proof_cases pe url v wq env with h | h <;>
      rw [h] <;> simp
  case wg500 =>
    rcases gatedGetWeather_no_proof_cases pe url v wq env with h | h <;>
      rw [h] <;> simp
  case wp402 =>
    intro h
    unfold gatedPostWeather
    rw [if_neg (by rw [h]; simp)]
    rfl
  case wp200 =>
    rcases gatedPostWeather_no_proof_cases pe url v wb env with h | h <;>
      rw [h] <;> simp
  case wp500 =>
    rcases gatedPostWeather_no_proof_cases pe url v wb env with h | h <;>
      rw [h] <;> simp
  case rpc402 =>
    intro hval
    unfold gatedMcpPost
    rw [if_pos hval]
    rfl
  case rpc200 =>
    intro hm
    by_cases hval : toolsCallValid req
    · have h402 : gatedMcpPost (some pe) url none v req env
          = ⟨402, .x402 (buildChallenge url pe)⟩ := by
        unfold gatedMcpPost
        rw [if_pos hval]
        rfl
      rw [h402]
      simp
    · have hsame : gatedMcpPost (some pe) url none v req env = handleMcpPost req env := by
        unfold gatedMcpPost
        rw [if_neg hval]
      rw [hsame]
      exact handleMcpPost_invalid_toolsCall_not200 req env hm hval
  case cfields => rfl
  case ptest => rfl

/-- Witness for C7: concrete instances satisfying the hypotheses of the
GET/POST equivalence. -/
theorem get_post_equivalence_numeric_witness :
    getCalculateRoute ⟨some "add", some "10", some "5"⟩ envA
      = postCalculateRoute ⟨some (.jstr "add"), some (.jnum 10), some (.jnum 5)⟩ envA
    ∧ getWeatherRoute ⟨some "Paris", some "celsius"⟩ envA
      = postWeatherRoute ⟨some (.jstr "Paris"), some (.jstr "celsius")⟩ envA
    ∧ getWeatherRoute ⟨some "Paris", none⟩ envA
      = postWeatherRoute ⟨some (.jstr "Paris"), none⟩ envA :=
  get_post_equivalence_numeric "add" "10" "5" 10 5 "Paris" "celsius" envA
    (by decide) (by decide) (by decide) (by decide) (by decide)

/-- Witness for C8: a concrete request with `jsonrpc:"1.0"` and a
truthy id instantiating the invalid-envelope theorem. -/
theorem invalid_jsonrpc_error_envelope_witness :
    handleMcpPost ⟨some (.jstr "1.0"), none, none, some (.jstr "abc")⟩ envA
      = ⟨400, .rpcErr (jsOr (jsGet (some (JValue.jstr "abc"))) .jnull) (-32600)
          "Invalid Request: jsonrpc must be \x272.0\x27"⟩
    ∧ handleMcpPost ⟨some (.jstr "1.0"), some (.jstr "tools/list"), none,
        some (.jstr "abc")⟩ envA
      = handleMcpPost ⟨some (.jstr "1.0"), none, none, some (.jstr "abc")⟩ envA
    ∧ (truthy (jsGet (some (JValue.jstr "abc"))) = true →
        jsOr (jsGet (some (JValue.jstr "abc"))) .jnull = jsGet (some (JValue.jstr "abc")))
    ∧ ((some (JValue.jstr "abc") : Option JValue) = none →
        jsOr (jsGet (some (JValue.jstr "abc"))) .jnull = .jnull) :=
  invalid_jsonrpc_error_envelope ⟨some (.jstr "1.0"), none, none, some (.jstr "abc")⟩
    (some (.jstr "tools/list")) none envA envA (by decide)

/-- Witness for C5: the unknown method `"foo/bar"` and the unknown tool
`"mystery"` instantiating the error-mapping theorem. -/
theorem unknown_method_and_tool_errors_witness :
    handleMcpPost ⟨some (.jstr "2.0"), some (.jstr "foo/bar"), none, some (.jnum 4)⟩ envA
      = ⟨501, .rpcErr (.jnum 4) (-32601) "Method not implemented: foo/bar"⟩
    ∧ handleMcpPost ⟨some (.jstr "2.0"), some (.jstr "tools/call"),
        some ⟨some (.jstr "mystery"), none⟩, some (.jnum 4)⟩ envA
      = ⟨400, .rpcErr (.jnum 4) (-32602) "Unknown tool: mystery"⟩ := by
  have t := unknown_method_and_tool_errors "foo/bar" "mystery" none none (.jnum 4) envA
  exact ⟨t.1 (by decide), t.2 (by decide) (by decide)⟩

/-- Witness for C10: `echo` as a registered name and `"nope"` as an
unregistered one instantiating the well-formedness theorem. -/
theorem callTool_wellformed_witness :
    (∃ r, callTool (.jstr "echo") {} envA = .ok r ∧ r.content.length = 1 ∧
      ∃ item, r.content.head? = some item ∧ item.ctype = "text")
    ∧ (∃ e, callTool (.jstr "nope") {} envA = .error e) :=
  ⟨(callTool_wellformed (.jstr "echo") {} envA).1 (Or.inr (Or.inr (Or.inl rfl))),
    (callTool_wellformed (.jstr "nope") {} envA).2.mpr (by decide)⟩

/-- Witness for C3: concrete malformed requests (missing operation,
missing `a`, missing location, missing name) instantiating the
no-payment-check theorem at a priced configuration. -/
theorem missing_params_never_402_witness :
    gatedGetCalculate (some peA) "http://localhost:3000/mcp/calculate" none true
      ⟨none, some "10", some "5"⟩ envA = ⟨400, .missingCalcGet⟩
    ∧ gatedPostCalculate (some peA) "http://localhost:3000/mcp/calculate" none true
      ⟨some (.jstr "add"), none, some (.jnum 5)⟩ envA = ⟨400, .missingCalcPost⟩
    ∧ gatedGetWeather (some peA) "http://localhost:3000/mcp/weather" none true
      ⟨none, none⟩ envA = ⟨400, .missingWeatherGet⟩
    ∧ gatedPostWeather (some peA) "http://localhost:3000/mcp/weather" none true
      ⟨none, none⟩ envA = ⟨400, .missingWeatherPost⟩
    ∧ gatedMcpPost (some peA) "http://localhost:3000/mcp" none true
      ⟨some (.jstr "2.0"), some (.jstr "tools/call"), some ⟨none, none⟩, some (.jnum 3)⟩ envA
      = ⟨400, .rpcErr (jsGet (some (JValue.jnum 3))) (-32602)
          "Invalid params: \x27name\x27 is required"⟩ := by
  have t1 := missing_params_never_402 (some peA) "http://localhost:3000/mcp/calculate"
    none true envA ⟨none, some "10", some "5"⟩ ⟨some (.jstr "add"), none, some (.jnum 5)⟩
    ⟨none, none⟩ ⟨none, none⟩
    ⟨some (.jstr "2.0"), some (.jstr "tools/call"), some ⟨none, none⟩, some (.jnum 3)⟩
    ⟨none, none⟩
  have t2 := missing_params_never_402 (some peA) "http://localhost:3000/mcp/weather"
    none true envA ⟨none, some "10", some "5"⟩ ⟨some (.jstr "add"), none, some (.jnum 5)⟩
    ⟨none, none⟩ ⟨none, none⟩
    ⟨some (.jstr "2.0"), some (.jstr "tools/call"), some ⟨none, none⟩, some (.jnum 3)⟩
    ⟨none, none⟩
  have t3 := missing_params_never_402 (some peA) "http://localhost:3000/mcp"
    none true envA ⟨none, some "10", some "5"⟩ ⟨some (.jstr "add"), none, some (.jnum 5)⟩
    ⟨none, none⟩ ⟨none, none⟩
    ⟨some (.jstr "2.0"), some (.jstr "tools/call"), some ⟨none, none⟩, some (.jnum 3)⟩
    ⟨none, none⟩
  exact ⟨t1.1 (by decide), t1.2.1 (by decide), t2.2.2.1 (by decide),
    t2.2.2.2.1 (by decide), t3.2.2.2.2 (by decide) (by decide) (by decide) (by decide)⟩

/-- Witness for C1: a fully concrete priced configuration, valid inputs
and no payment proof instantiating the 402 theorem on every route. -/
theorem priced_route_without_proof_yields_402_witness :
    gatedGetCalculate (some peA) "http://localhost:3000/mcp/calculate" none true
      ⟨some "add", some "10", some "5"⟩ envA
      = ⟨402, .challenge (buildChallenge "http://localhost:3000/mcp/calculate" peA)⟩
    ∧ gatedPostCalculate (some peA) "http://localhost:3000/mcp/calculate" none true
      ⟨some (.jstr "add"), some (.jnum 1), some (.jnum 2)⟩ envA
      = ⟨402, .challenge (buildChallenge "http://localhost:3000/mcp/calculate" peA)⟩
    ∧ gatedGetWeather (some peA) "http://localhost:3000/mcp/weather" none true
      ⟨some "Paris", none⟩ envA
      = ⟨402, .challenge (buildChallenge "http://localhost:3000/mcp/weather" peA)⟩
    ∧ gatedPostWeather (some peA) "http://localhost:3000/mcp/weather" none true
      ⟨some (.jstr "Paris"), none⟩ envA
      = ⟨402, .challenge (buildChallenge "http://localhost:3000/mcp/weather" peA)⟩
    ∧ gatedMcpPost (some peA) "http://localhost:3000/mcp" none true
      ⟨some (.jstr "2.0"), some (.jstr "tools/call"),
        some ⟨some (.jstr "echo"), some { message := some (.jstr "hi") }⟩, some (.jnum 1)⟩ envA
      = ⟨402, .x402 (buildChallenge "http://localhost:3000/mcp" peA)⟩
    ∧ (gatedMcpPost (some peA) "http://localhost:3000/mcp" none true
      ⟨some (.jstr "2.0"), some (.jstr "tools/call"),
        some ⟨some (.jstr "echo"), some { message := some (.jstr "hi") }⟩,
        some (.jnum 1)⟩ envA).status ≠ 200
    ∧ protectedCallRoute none none ⟨some (.jstr "/mcp/calculate"), none⟩
      = ⟨402, .challenge ⟨1, "X-PAYMENT header is required",
          [⟨"exact", "base-sepolia", "1000",
            "http://localhost:3000" ++ jsToString (jsGet (some (JValue.jstr "/mcp/calculate"))),
            some "Payment required for this resource", envAddr none, 60, usdcAsset,
            "USDC", "2"⟩]⟩⟩ := by
  have tc := priced_route_without_proof_yields_402 peA "http://localhost:3000/mcp/calculate"
    true envA ⟨some "add", some "10", some "5"⟩
    ⟨some (.jstr "add"), some (.jnum 1), some (.jnum 2)⟩ ⟨some "Paris", none⟩
    ⟨some (.jstr "Paris"), none⟩
    ⟨some (.jstr "2.0"), some (.jstr "tools/call"),
      some ⟨some (.jstr "echo"), some { message := some (.jstr "hi") }⟩, some (.jnum 1)⟩
    none ⟨some (.jstr "/mcp/calculate"), none⟩
  have tw := priced_route_without_proof_yields_402 peA "http://localhost:3000/mcp/weather"
    true envA ⟨some "add", some "10", some "5"⟩
    ⟨some (.jstr "add"), some (.jnum 1), some (.jnum 2)⟩ ⟨some "Paris", none⟩
    ⟨some (.jstr "Paris"), none⟩
    ⟨some (.jstr "2.0"), some (.jstr "tools/call"),
      some ⟨some (.jstr "echo"), some { message := some (.jstr "hi") }⟩, some (.jnum 1)⟩
    none ⟨some (.jstr "/mcp/calculate"), none⟩
  have tr := priced_route_without_proof_yields_402 peA "http://localhost:3000/mcp"
    true envA ⟨some "add", some "10", some "5"⟩
    ⟨some (.jstr "add"), some (.jnum 1), some (.jnum 2)⟩ ⟨some "Paris", none⟩
    ⟨some (.jstr "Paris"), none⟩
    ⟨some (.jstr "2.0"), some (.jstr "tools/call"),
      some ⟨some (.jstr "echo"), some { message := some (.jstr "hi") }⟩, some (.jnum 1)⟩
    none ⟨some (.jstr "/mcp/calculate"), none⟩
  refine ⟨tc.1 (by decide), tc.2.2.2.1 (by decide), tw.2.2.2.2.2.2.1 (by decide),
    tw.2.2.2.2.2.2.2.2.2.1 (by decide), tr.2.2.2.2.2.2.2.2.2.2.2.2.1 ?hval,
    tr.2.2.2.2.2.2.2.2.2.2.2.2.2.1 (by decide), tc.2.2.2.2.2.2.2.2.2.2.2.2.2.2.2⟩
  exact ⟨rfl, rfl, ⟨some (.jstr "echo"), some { message := some (.jstr "hi") }⟩, rfl, rfl⟩
